import Mathlib

/-!
Shallow embedding of the control-plane scheduler core of the O2 Control
repository: the OFFERS-cycle offer matcher and message/device-event handlers
of core/scheduler.go, and the repository refresh operations of
core/repos/repomanager.go.

Modelling conventions:
- Mesos scalar resources (float64 in the source) are modelled as integers:
  every comparison and sum the claims exercise happens at integer values,
  where double arithmetic is exact, so the model and the source agree on
  all inputs used below.
- Port resources (mesos.Value_Range lists) are modelled as lists of ranges.
- Fallible steps (json.Unmarshal, map lookups that can yield nil) are
  modelled with Option, and a method call on a nil receiver is modelled as a
  distinguished outcome value.
-/

namespace O2Sched

/-- One mesos.Value_Range. The Go fields are Begin and End; End is reserved
in Lean, so the fields are named lo and hi. -/
structure PortRange where
  lo : Nat
  hi : Nat
deriving DecidableEq

/-- Every range of the list is well formed (Begin less than or equal to End). -/
def rangesValid (rs : List PortRange) : Prop :=
  ∀ r ∈ rs, r.lo ≤ r.hi

instance (rs : List PortRange) : Decidable (rangesValid rs) := by
  unfold rangesValid; infer_instance

/-- Membership of a single port in a list of ranges. -/
def containsPort (rs : List PortRange) (p : Nat) : Bool :=
  rs.any (fun r => decide (r.lo ≤ p) && decide (p ≤ r.hi))

/-- mesos-go Ranges.Remove of the interval from a to b: each range is
replaced by its (at most two) pieces outside the interval. The mesos-go
implementation also sorts and squashes; the set of ports and the minimum
are unaffected, which is all the scheduler observes. -/
def removeRange (a b : Nat) : List PortRange → List PortRange
  | [] => []
  | r :: tl =>
    (if r.lo < a then [⟨r.lo, min r.hi (a - 1)⟩] else []) ++
    (if b < r.hi then [⟨max r.lo (b + 1), r.hi⟩] else []) ++
    removeRange a b tl

/-- mesos-go Ranges.Min: the least port of the ranges (the source only calls
it on ranges obtained from Remove, which are coalesced; the minimum of the
Begin fields is then the least contained port). On empty ranges the model
returns 0; no theorem below depends on the empty case. -/
def rangesMin : List PortRange → Nat
  | [] => 0
  | [r] => r.lo
  | r :: s :: tl => min r.lo (rangesMin (s :: tl))

/-- The port-allocation step of core/scheduler.go (both occurrences):
availPorts := Ports(remaining).Remove(Value_Range{0, floor});
port := availPorts.Min(); remaining.Subtract(ports(port, port)).
Returns the picked port and the remaining port ranges. -/
def pickPort (floor : Nat) (ports : List PortRange) : Nat × List PortRange :=
  let avail := removeRange 0 floor ports
  let p := rangesMin avail
  (p, removeRange p p ports)

theorem containsPort_removeRange {a b p : Nat} {rs : List PortRange} :
    containsPort (removeRange a b rs) p = true ↔
      (containsPort rs p = true ∧ (p < a ∨ b < p)) := by
  induction rs with
  | nil => simp [removeRange, containsPort]
  | cons r tl ih =>
    simp only [removeRange, containsPort, List.any_append, List.any_cons,
      Bool.or_eq_true, Bool.and_eq_true, decide_eq_true_eq] at *
    constructor
    · rintro ((h | h) | h)
      · split at h <;> simp at h <;> omega
      · split at h <;> simp at h <;> omega
      · have := ih.mp h
        tauto
    · rintro ⟨(h | h), hp⟩
      · rcases hp with hp | hp
        · refine Or.inl (Or.inl ?_)
          have : r.lo < a := by omega
          simp [this]; omega
        · refine Or.inl (Or.inr ?_)
          have : b < r.hi := by omega
          simp [this]; omega
      · exact Or.inr (ih.mpr ⟨h, hp⟩)

theorem rangesValid_removeRange {a b : Nat} {rs : List PortRange}
    (hv : rangesValid rs) : rangesValid (removeRange a b rs) := by
  induction rs with
  | nil => simp [removeRange, rangesValid]
  | cons r tl ih =>
    have hr : r.lo ≤ r.hi := hv r (List.mem_cons_self r tl)
    have htl : rangesValid tl := fun x hx => hv x (List.mem_cons_of_mem r hx)
    intro x hx
    simp only [removeRange, List.mem_append] at hx
    rcases hx with (h | h) | h
    · split at h <;> simp at h
      subst h; simp; omega
    · split at h <;> simp at h
      subst h; simp; omega
    · exact ih htl x h

theorem rangesMin_le_of_mem {rs : List PortRange} {r : PortRange}
    (h : r ∈ rs) : rangesMin rs ≤ r.lo := by
  induction rs with
  | nil => cases h
  | cons x tl ih =>
    cases tl with
    | nil =>
      simp at h
      subst h; simp [rangesMin]
    | cons y tr =>
      rcases List.mem_cons.mp h with h1 | h2
      · subst h1; simp [rangesMin]
      · calc rangesMin (x :: y :: tr) ≤ rangesMin (y :: tr) := by
              simp [rangesMin]
          _ ≤ r.lo := ih h2

theorem exists_rangesMin_eq {rs : List PortRange} (h : rs ≠ []) :
    ∃ r ∈ rs, rangesMin rs = r.lo := by
  induction rs with
  | nil => exact absurd rfl h
  | cons x tl ih =>
    cases tl with
    | nil => exact ⟨x, by simp, by simp [rangesMin]⟩
    | cons y tr =>
      rcases ih (by simp) with ⟨r, hr, hmin⟩
      by_cases hc : x.lo ≤ rangesMin (y :: tr)
      · exact ⟨x, by simp, by simp [rangesMin, min_eq_left hc]⟩
      · refine ⟨r, List.mem_cons_of_mem _ hr, ?_⟩
        have hle : rangesMin (y :: tr) ≤ x.lo := le_of_not_le hc
        have h3 : rangesMin (x :: y :: tr) = min x.lo (rangesMin (y :: tr)) := rfl
        rw [h3, min_eq_right hle, hmin]

theorem mem_of_containsPort {rs : List PortRange} {p : Nat}
    (h : containsPort rs p = true) : ∃ r ∈ rs, r.lo ≤ p ∧ p ≤ r.hi := by
  simp only [containsPort, List.any_eq_true, Bool.and_eq_true,
    decide_eq_true_eq] at h
  exact h

theorem containsPort_of_mem {rs : List PortRange} {r : PortRange} {p : Nat}
    (hr : r ∈ rs) (h1 : r.lo ≤ p) (h2 : p ≤ r.hi) :
    containsPort rs p = true := by
  simp only [containsPort, List.any_eq_true, Bool.and_eq_true,
    decide_eq_true_eq]
  exact ⟨r, hr, h1, h2⟩

/-- The picked port is the minimum port of the ranges strictly above the
floor, provided some port above the floor is available. -/
theorem pickPort_spec (floor : Nat) (ports : List PortRange)
    (hv : rangesValid ports) (hne : removeRange 0 floor ports ≠ []) :
    floor < (pickPort floor ports).1 ∧
    containsPort ports (pickPort floor ports).1 = true ∧
    (∀ q, containsPort ports q = true → floor < q →
      (pickPort floor ports).1 ≤ q) := by
  have hvAvail := rangesValid_removeRange (a := 0) (b := floor) hv
  obtain ⟨r, hr, hmin⟩ := exists_rangesMin_eq hne
  have hrv : r.lo ≤ r.hi := hvAvail r hr
  have hcont : containsPort (removeRange 0 floor ports) r.lo = true :=
    containsPort_of_mem hr le_rfl hrv
  have hsplit := containsPort_removeRange.mp hcont
  have hp1 : (pickPort floor ports).1 = r.lo := hmin
  refine ⟨?_, ?_, ?_⟩
  · rw [hp1]; omega
  · rw [hp1]; exact hsplit.1
  · intro q hq hfq
    rw [hp1]
    have hq2 : containsPort (removeRange 0 floor ports) q = true :=
      containsPort_removeRange.mpr ⟨hq, Or.inr hfq⟩
    obtain ⟨r2, hr2, hlo, _⟩ := mem_of_containsPort hq2
    calc r.lo = rangesMin (removeRange 0 floor ports) := hmin.symm
      _ ≤ r2.lo := rangesMin_le_of_mem hr2
      _ ≤ q := hlo

/-- The scalar and port resources of an offer, and the remainingResources
variable of the matching loop. mesos.Resources carrying cpus, mem and ports;
scalars are float64 in the source, modelled as integers. An empty ports
list models the absence of a ports resource, which is exactly the case in
which resources.Ports returns ok = false (mesos-go resource subtraction
prunes empty resources). -/
structure Res where
  cpu : Int
  mem : Int
  ports : List PortRange
deriving DecidableEq

/-- Modelled from the spec: the resource demand of a task class
(task.Wants, returned by GetWantsForDescriptor; the task package is not part
of the excerpted sources). Fields follow section 3 of the spec: CPU count,
memory, required static ports, named dynamic ports to be bound. -/
structure Wants where
  cpu : Int
  memory : Int
  staticPorts : List PortRange
  bindPorts : List String
deriving DecidableEq

/-- Modelled from the spec: task.Resources(remaining).Satisfy(wants), step b
of the matching algorithm in section 4.7 — the remaining resources of the
offer must cover the scalar demand and the required static ports. Named
dynamic ports are allocated later (step c), so they are not part of this
check. -/
def satisfy (r : Res) (w : Wants) : Bool :=
  decide (w.cpu ≤ r.cpu) && decide (w.memory ≤ r.mem) &&
  w.staticPorts.all (fun sr =>
    (List.range' sr.lo (sr.hi + 1 - sr.lo)).all (fun p => containsPort r.ports p))

/-- A task descriptor as the matcher sees it: the class name, the
precomputed constraints for the descriptor (spec section 4.4,
BuildDescriptorConstraints), the resource demand of its class (none models
GetWantsForDescriptor returning nil for an unknown class), and whether
json.Marshal of the run command built for it succeeds (the serialization
outcome of lines 557-572 of core/scheduler.go, made explicit so that the
failure control path is part of the model). -/
structure Descriptor where
  taskClassName : String
  requiredAttrs : List (String × String)
  wants : Option Wants
  serializeOk : Bool
deriving DecidableEq

/-- Modelled from the spec: offerAttributes.Satisfy(constraints) of the
constraint package (not in the excerpted sources) — every required
attribute equality must be present among the offer attributes (spec
scenario 2: machine attributes such as role equal to FLP). -/
def attrsSatisfy (offerAttrs : List (String × String))
    (cs : List (String × String)) : Bool :=
  cs.all (fun c => offerAttrs.contains c)

/-- An ephemeral resource offer: identifier, attributes, resource bundle.
Agent id, hostname and executor ids are omitted: no claim observes them. -/
structure Offer where
  oid : Nat
  attrs : List (String × String)
  res : Res
deriving DecidableEq

/-- One launch operation assembled for the ACCEPT call: the descriptor it
fulfils, the requested resources (wants plus executor resources, lines
574-597), the dynamic-port bind map and the control port. -/
structure LaunchInfo where
  desc : Descriptor
  reqCpu : Int
  reqMem : Int
  reqPorts : List PortRange
  bindMap : List (String × Nat)
  controlPort : Nat
deriving DecidableEq

/-- The mutable state of the per-offer matching inner loop (lines 453-639):
remaining resources, the launch list, whether the offer id is still in the
decline-set, how many tasks NewTaskForMesosOffer created for this offer,
and counters of state.Lock and state.Unlock calls. -/
structure OfferSt where
  remaining : Res
  tasks : List LaunchInfo
  declined : Bool
  created : Nat
  locks : Nat
  unlocks : Nat
deriving DecidableEq

/-- The dynamic-port binding loop (lines 492-506): for each named port,
resources.Ports on the remaining resources (ok = false, that is an empty
ports list, aborts the descriptor: continue FOR_DESCRIPTORS), then the pick
with the hard-coded floor 8999 and subtraction of the picked port from
remainingResources. The first component is none when the ports ran out,
otherwise the bind map; the second component is ALWAYS the resulting
remaining ports — the Subtract calls of earlier iterations stay in effect
even when the loop aborts mid-descriptor, because continue FOR_DESCRIPTORS
never restores remainingResources. -/
def bindLoop (chans : List String) (ports : List PortRange)
    (bm : List (String × Nat)) :
    Option (List (String × Nat)) × List PortRange :=
  match chans with
  | [] => (some bm, ports)
  | ch :: rest =>
    if ports.isEmpty then (none, ports)
    else
      let pr := pickPort 8999 ports
      bindLoop rest pr.2 (bm ++ [(ch, pr.1)])

/-- One iteration of the descriptor loop (lines 458-637) on one descriptor.
Returns the updated state and whether the descriptor was matched (and is
therefore removed from the pending list). Faithful points:
- constraints, wants lookup and Satisfy are checked against the CURRENT
  remaining resources, but only PORT resources are ever subtracted from
  remainingResources; cpu and mem are never subtracted (lines 490-597 build
  the request from wants, not from remaining);
- NewTaskForMesosOffer (task creation) and the removal of the offer id from
  the decline-set happen BEFORE the control-port claim, so a descriptor
  abandoned at the control-port step has already created a task and removed
  the offer from the decline-set;
- a descriptor abandoned because the ports ran out MID-BINDING keeps the
  ports consumed by its earlier bind iterations subtracted from
  remainingResources (the Subtract at line 504 is never undone), while
  tasks, decline status and creation count are untouched;
- the control-port pick uses the hard-coded floor 29999 (line 540);
- on serialization failure the source calls state.Unlock() and continues
  the loop (lines 569-571), counted here in unlocks;
- AgentCache.Update and the nil check of NewTaskForMesosOffer (programmer
  error only, per spec section 4.4) are not modelled. -/
def matchDescriptor (execCpu execMem : Int) (off : Offer) (d : Descriptor)
    (st : OfferSt) : OfferSt × Bool :=
  if attrsSatisfy off.attrs d.requiredAttrs then
    match d.wants with
    | none => (st, false)
    | some w =>
      if satisfy st.remaining w then
        match bindLoop w.bindPorts st.remaining.ports [] with
        | (none, portsX) =>
          ({ st with remaining := { st.remaining with ports := portsX } },
           false)
        | (some bm, ports1) =>
          let st1 : OfferSt :=
            { st with remaining := { st.remaining with ports := ports1 },
                      created := st.created + 1, declined := false }
          if ports1.isEmpty then (st1, false)
          else
            let pick := pickPort 29999 ports1
            let st2 : OfferSt :=
              { st1 with remaining := { st1.remaining with ports := pick.2 } }
            if d.serializeOk then
              let L : LaunchInfo :=
                { desc := d, reqCpu := w.cpu + execCpu,
                  reqMem := w.memory + execMem,
                  reqPorts := w.staticPorts ++
                    bm.map (fun x => ⟨x.2, x.2⟩) ++ [⟨pick.1, pick.1⟩],
                  bindMap := bm, controlPort := pick.1 }
              ({ st2 with tasks := st2.tasks ++ [L] }, true)
            else
              ({ st2 with unlocks := st2.unlocks + 1 }, false)
      else (st, false)
  else (st, false)

/-- The descriptor loop of one offer. The Go loop walks indices from
len-1 down to 0 and removes matched descriptors in place; removing index i
leaves indices below i untouched, so the loop is the front-to-back walk of
the REVERSED pending list. The second component is the reversed list of
descriptors that survive (returned in processing order; the caller reverses
it back to insertion order). -/
def walkDescriptors (execCpu execMem : Int) (off : Offer)
    (rds : List Descriptor) (st : OfferSt) : OfferSt × List Descriptor :=
  match rds with
  | [] => (st, [])
  | d :: tl =>
    let r := matchDescriptor execCpu execMem off d st
    let rest := walkDescriptors execCpu execMem off tl r.1
    (rest.1, if r.2 then rest.2 else d :: rest.2)

/-- The outcome of one offer within a cycle: the ACCEPT launch operations
issued for it (the ACCEPT call is issued for every offer once any
descriptors are pending, possibly with zero launches, lines 641-647),
whether its id is still in the decline-set at the end of the cycle, the
number of created tasks, and the lock counters of its inner loop. -/
structure OfferResult where
  offerId : Nat
  launches : List LaunchInfo
  declinedFinal : Bool
  created : Nat
  locks : Nat
  unlocks : Nat
deriving DecidableEq

/-- Processing of one offer (lines 421-676): state.Lock(), the descriptor
loop over the reversed pending list, state.Unlock(), then the ACCEPT call
with the assembled launches. Returns the offer result and the updated
pending list (insertion order). -/
def processOffer (execCpu execMem : Int) (off : Offer)
    (pending : List Descriptor) : OfferResult × List Descriptor :=
  let st0 : OfferSt :=
    { remaining := off.res, tasks := [], declined := true, created := 0,
      locks := 1, unlocks := 0 }
  let w := walkDescriptors execCpu execMem off pending.reverse st0
  ({ offerId := off.oid, launches := w.1.tasks, declinedFinal := w.1.declined,
     created := w.1.created, locks := w.1.locks, unlocks := w.1.unlocks + 1 },
   w.2.reverse)

/-- The offer loop (line 421): offers in arrival order, the pending
descriptor list threaded through. -/
def processOffers (execCpu execMem : Int) (offers : List Offer)
    (pending : List Descriptor) : List OfferResult × List Descriptor :=
  match offers with
  | [] => ([], pending)
  | off :: rest =>
    let r := processOffer execCpu execMem off pending
    let rr := processOffers execCpu execMem rest r.2
    (r.1 :: rr.1, rr.2)

/-- The observable outcome of one OFFERS cycle: the ACCEPT calls (offer id
with its launch operations), the single DECLINE batch, the pending
descriptors left for the next cycle, and the per-offer results. -/
structure CycleResult where
  accepts : List (Nat × List LaunchInfo)
  declineBatch : List Nat
  pendingAfter : List Descriptor
  offerResults : List OfferResult
deriving DecidableEq

/-- The resourceOffers handler (lines 346-729): when no descriptors are
pending the offer loop is skipped entirely and every offer is declined;
otherwise every offer is processed (and receives an ACCEPT call with its
launches, possibly zero of them), and the DECLINE batch collects the offers
whose ids are still in the decline-set. -/
def resourceOffers (execCpu execMem : Int) (offers : List Offer)
    (pending : List Descriptor) : CycleResult :=
  if pending.isEmpty then
    { accepts := [], declineBatch := offers.map Offer.oid,
      pendingAfter := pending, offerResults := [] }
  else
    let pr := processOffers execCpu execMem offers pending
    { accepts := pr.1.map (fun r => (r.offerId, r.launches)),
      declineBatch := (pr.1.filter (fun r => r.declinedFinal)).map
        (fun r => r.offerId),
      pendingAfter := pr.2,
      offerResults := pr.1 }

theorem matchDescriptor_step (e m : Int) (off : Offer) (d : Descriptor)
    (st : OfferSt) :
    ((matchDescriptor e m off d st).1.created = st.created ∧
     (matchDescriptor e m off d st).1.declined = st.declined ∧
     (matchDescriptor e m off d st).1.tasks = st.tasks) ∨
    ((matchDescriptor e m off d st).1.created = st.created + 1 ∧
     (matchDescriptor e m off d st).1.declined = false) := by
  unfold matchDescriptor
  repeat' split
  all_goals simp

theorem matchDescriptor_tasks (e m : Int) (off : Offer) (d : Descriptor)
    (st : OfferSt) :
    (matchDescriptor e m off d st).1.tasks = st.tasks ∨
    (∃ L, (matchDescriptor e m off d st).1.tasks = st.tasks ++ [L] ∧
      L.desc = d) := by
  unfold matchDescriptor
  repeat' split
  all_goals simp

theorem matchDescriptor_matched_tasks (e m : Int) (off : Offer)
    (d : Descriptor) (st : OfferSt)
    (h : (matchDescriptor e m off d st).2 = true) :
    ∃ L, (matchDescriptor e m off d st).1.tasks = st.tasks ++ [L] ∧
      L.desc = d := by
  unfold matchDescriptor at *
  repeat' split at h
  all_goals simp_all

theorem walkDescriptors_fst (e m : Int) (off : Offer) (d : Descriptor)
    (tl : List Descriptor) (st : OfferSt) :
    (walkDescriptors e m off (d :: tl) st).1 =
      (walkDescriptors e m off tl (matchDescriptor e m off d st).1).1 := by
  simp [walkDescriptors]

theorem walkDescriptors_created_declined (e m : Int) (off : Offer) :
    ∀ (rds : List Descriptor) (st : OfferSt),
    ((walkDescriptors e m off rds st).1.created = st.created ∧
     (walkDescriptors e m off rds st).1.declined = st.declined ∧
     (walkDescriptors e m off rds st).1.tasks = st.tasks) ∨
    (st.created < (walkDescriptors e m off rds st).1.created ∧
     (walkDescriptors e m off rds st).1.declined = false) := by
  intro rds
  induction rds with
  | nil => intro st; left; simp [walkDescriptors]
  | cons d tl ih =>
    intro st
    rw [walkDescriptors_fst]
    rcases matchDescriptor_step e m off d st with ⟨h1, h2, h3⟩ | ⟨h1, h2⟩
    · rcases ih (matchDescriptor e m off d st).1 with ⟨g1, g2, g3⟩ | ⟨g1, g2⟩
      · exact Or.inl ⟨by rw [g1, h1], by rw [g2, h2], by rw [g3, h3]⟩
      · exact Or.inr ⟨by omega, g2⟩
    · rcases ih (matchDescriptor e m off d st).1 with ⟨g1, g2, g3⟩ | ⟨g1, g2⟩
      · exact Or.inr ⟨by omega, by rw [g2, h2]⟩
      · exact Or.inr ⟨by omega, g2⟩

theorem walkDescriptors_tasks_sublist (e m : Int) (off : Offer) :
    ∀ (rds : List Descriptor) (st : OfferSt),
    ∃ ts, (walkDescriptors e m off rds st).1.tasks = st.tasks ++ ts ∧
      (ts.map LaunchInfo.desc).Sublist rds := by
  intro rds
  induction rds with
  | nil => intro st; exact ⟨[], by simp [walkDescriptors]⟩
  | cons d tl ih =>
    intro st
    rcases ih (matchDescriptor e m off d st).1 with ⟨ts, hts, hsub⟩
    rw [walkDescriptors_fst]
    rcases matchDescriptor_tasks e m off d st with h | ⟨L, hL, hLd⟩
    · exact ⟨ts, by rw [hts, h], hsub.cons d⟩
    · refine ⟨L :: ts, ?_, ?_⟩
      · rw [hts, hL, List.append_cons, List.append_assoc]
        simp
      · simpa [hLd] using hsub.cons₂ d

theorem walkDescriptors_kept_sublist (e m : Int) (off : Offer) :
    ∀ (rds : List Descriptor) (st : OfferSt),
    ((walkDescriptors e m off rds st).2).Sublist rds := by
  intro rds
  induction rds with
  | nil => intro st; simp [walkDescriptors]
  | cons d tl ih =>
    intro st
    show ((walkDescriptors e m off (d :: tl) st).2).Sublist (d :: tl)
    simp only [walkDescriptors]
    split
    · exact (ih _).cons d
    · exact (ih _).cons₂ d

theorem processOffer_result (e m : Int) (off : Offer)
    (pending : List Descriptor) :
    ((processOffer e m off pending).1.declinedFinal = true ↔
      (processOffer e m off pending).1.created = 0) ∧
    ((processOffer e m off pending).1.launches ≠ [] →
      (processOffer e m off pending).1.declinedFinal = false) := by
  simp only [processOffer]
  rcases walkDescriptors_created_declined e m off pending.reverse
      { remaining := off.res, tasks := [], declined := true, created := 0,
        locks := 1, unlocks := 0 } with ⟨h1, h2, h3⟩ | ⟨h1, h2⟩
  · simp_all
  · constructor
    · simp_all
      omega
    · intro _
      simp_all

theorem processOffers_result (e m : Int) :
    ∀ (offers : List Offer) (pending : List Descriptor)
    (r : OfferResult), r ∈ (processOffers e m offers pending).1 →
    ((r.declinedFinal = true ↔ r.created = 0) ∧
     (r.launches ≠ [] → r.declinedFinal = false)) := by
  intro offers
  induction offers with
  | nil => intro pending r hr; simp [processOffers] at hr
  | cons off rest ih =>
    intro pending r hr
    simp only [processOffers, List.mem_cons] at hr
    rcases hr with hr | hr
    · subst hr; exact processOffer_result e m off pending
    · exact ih _ r hr

/-- Definitions for the concrete offers cycle refuting claim C1: one offer
with 2 cpus and 128 mem, and two descriptors each demanding 2 cpus and
128 mem. -/
def c1Wants : Wants :=
  { cpu := 2, memory := 128, staticPorts := [], bindPorts := [] }

def c1Desc (n : String) : Descriptor :=
  { taskClassName := n, requiredAttrs := [], wants := some c1Wants,
    serializeOk := true }

def c1Offer : Offer :=
  { oid := 1, attrs := [],
    res := { cpu := 2, mem := 128, ports := [⟨30000, 30100⟩] } }

/-- Claim C1 (code bug): offer conservation fails on the code. The matching
loop checks Satisfy against remainingResources but never subtracts cpu or
mem from them (only ports, lines 490-506 and 533-545 of
core/scheduler.go), so two descriptors each demanding the WHOLE scalar
bundle of one offer are both matched to it: the single ACCEPT for the offer
carries launches totalling 4 cpus and 256 mem against an offer of 2 cpus
and 128 mem, and nothing is declined. -/
theorem c1_offer_conservation_violated :
    ((resourceOffers 0 0 [c1Offer] [c1Desc "a", c1Desc "b"]).accepts.map
      (fun a => (a.2.map LaunchInfo.reqCpu).sum)) = [4] ∧
    ((resourceOffers 0 0 [c1Offer] [c1Desc "a", c1Desc "b"]).accepts.map
      (fun a => (a.2.map LaunchInfo.reqMem).sum)) = [256] ∧
    (resourceOffers 0 0 [c1Offer] [c1Desc "a", c1Desc "b"]).declineBatch
      = [] ∧
    c1Offer.res.cpu = 2 ∧ c1Offer.res.mem = 128 ∧
    ¬ ((4 : Int) ≤ c1Offer.res.cpu) := by decide

/-- Definitions for the concrete cycle refuting the control-port part of
claim C2: the offer holds ports 30000-30005 and 47150-47160, so the minimum
available port strictly above 47100 would be 47150. -/
def c2Offer : Offer :=
  { oid := 2, attrs := [],
    res := { cpu := 4, mem := 256,
             ports := [⟨30000, 30005⟩, ⟨47150, 47160⟩] } }

def c2Desc : Descriptor :=
  { taskClassName := "c2", requiredAttrs := [],
    wants := some { cpu := 1, memory := 64, staticPorts := [],
                    bindPorts := [] },
    serializeOk := true }

/-- Claim C2 counterexample: the control port is NOT the minimum available
port strictly above a floor of 47100. On an offer holding ports 30000-30005
and 47150-47160 the launched task gets control port 30000 (the code removes
only the range 0-29999, line 540 of core/scheduler.go), even though 47150
is available; 30000 is far below the claimed minimum floor of 47101. -/
theorem c2_counterexample :
    ((resourceOffers 0 0 [c2Offer] [c2Desc]).accepts.map
      (fun a => a.2.map LaunchInfo.controlPort)) = [[30000]] ∧
    containsPort c2Offer.res.ports 47150 = true ∧
    ¬ (47100 < 30000) := by decide

/-- Claim C2 as amended: for each named dynamic port the binding loop picks
the minimum port of the remaining ranges strictly above the hard-coded
floor 8999 (so at least 9000), and the control-port step picks the minimum
available port strictly above the hard-coded floor 29999 (so at least
30000, not 47101), whenever a port above the respective floor is
available. -/
theorem c2_port_floors (ports : List PortRange) (ch : String)
    (hv : rangesValid ports)
    (h9 : removeRange 0 8999 ports ≠ [])
    (h29 : removeRange 0 29999 ports ≠ [])
    (hne : ports ≠ []) :
    bindLoop [ch] ports [] =
      (some [(ch, (pickPort 8999 ports).1)], (pickPort 8999 ports).2) ∧
    (8999 < (pickPort 8999 ports).1 ∧
     containsPort ports (pickPort 8999 ports).1 = true ∧
     ∀ q, containsPort ports q = true → 8999 < q →
       (pickPort 8999 ports).1 ≤ q) ∧
    (29999 < (pickPort 29999 ports).1 ∧
     containsPort ports (pickPort 29999 ports).1 = true ∧
     ∀ q, containsPort ports q = true → 29999 < q →
       (pickPort 29999 ports).1 ≤ q) := by
  refine ⟨?_, pickPort_spec 8999 ports hv h9, pickPort_spec 29999 ports hv h29⟩
  have hne2 : ports.isEmpty = false := by
    cases ports
    · exact absurd rfl hne
    · rfl
  simp [bindLoop, hne2]

/-- Witness for c2_port_floors at a concrete port list. -/
theorem c2_port_floors_witness :
    bindLoop ["data"] [⟨9100, 9100⟩, ⟨31000, 31005⟩] [] =
      (some [("data", (pickPort 8999 [⟨9100, 9100⟩, ⟨31000, 31005⟩]).1)],
        (pickPort 8999 [⟨9100, 9100⟩, ⟨31000, 31005⟩]).2) ∧
    (8999 < (pickPort 8999 [⟨9100, 9100⟩, ⟨31000, 31005⟩]).1 ∧
     containsPort [⟨9100, 9100⟩, ⟨31000, 31005⟩]
       (pickPort 8999 [⟨9100, 9100⟩, ⟨31000, 31005⟩]).1 = true ∧
     ∀ q, containsPort [⟨9100, 9100⟩, ⟨31000, 31005⟩] q = true → 8999 < q →
       (pickPort 8999 [⟨9100, 9100⟩, ⟨31000, 31005⟩]).1 ≤ q) ∧
    (29999 < (pickPort 29999 [⟨9100, 9100⟩, ⟨31000, 31005⟩]).1 ∧
     containsPort [⟨9100, 9100⟩, ⟨31000, 31005⟩]
       (pickPort 29999 [⟨9100, 9100⟩, ⟨31000, 31005⟩]).1 = true ∧
     ∀ q, containsPort [⟨9100, 9100⟩, ⟨31000, 31005⟩] q = true → 29999 < q →
       (pickPort 29999 [⟨9100, 9100⟩, ⟨31000, 31005⟩]).1 ≤ q) :=
  c2_port_floors [⟨9100, 9100⟩, ⟨31000, 31005⟩] "data" (by decide)
    (by decide) (by decide) (by decide)

/-- Definitions for the concrete cycle refuting claim C3: the offer carries
no port resource, and the single pending descriptor needs no ports at the
Satisfy step, so a task is created for it (removing the offer from the
decline-set) and the descriptor is then abandoned at the control-port
claim. -/
def c3Offer : Offer :=
  { oid := 3, attrs := [], res := { cpu := 4, mem := 256, ports := [] } }

def c3Desc : Descriptor :=
  { taskClassName := "c3", requiredAttrs := [],
    wants := some { cpu := 1, memory := 64, staticPorts := [],
                    bindPorts := [] },
    serializeOk := true }

/-- Claim C3 counterexample: an offer can end the cycle neither accepted
with a launch operation nor in the DECLINE batch. The offer id is removed
from the decline-set when NewTaskForMesosOffer creates a task (lines
515-528), which happens BEFORE the control-port claim (lines 533-537);
when that claim fails the descriptor is abandoned, so the ACCEPT for this
offer carries zero launch operations, and the offer is not declined
either. -/
theorem c3_counterexample :
    (resourceOffers 0 0 [c3Offer] [c3Desc]).accepts = [(3, [])] ∧
    (resourceOffers 0 0 [c3Offer] [c3Desc]).declineBatch = [] ∧
    ((resourceOffers 0 0 [c3Offer] [c3Desc]).offerResults.map
      OfferResult.created) = [1] := by decide

/-- Claim C3 as amended: every received offer starts in the decline-set
and its id is removed exactly when the first task is CREATED for it (task
creation, which can precede the launch and can be abandoned at the
control-port or serialization step). At the end of the cycle the DECLINE
batch is exactly the offers for which no task was created, and every offer
receives an ACCEPT call with its launches; an offer with at least one
launch is never declined (never both), but an offer whose created tasks
were all abandoned before launch is neither launched on nor declined. -/
theorem c3_offer_settlement (e m : Int) (offers : List Offer)
    (pending : List Descriptor) (hp : pending ≠ []) :
    ((resourceOffers e m offers pending).declineBatch =
      ((resourceOffers e m offers pending).offerResults.filter
        (fun r => r.declinedFinal)).map (fun r => r.offerId)) ∧
    ((resourceOffers e m offers pending).accepts =
      (resourceOffers e m offers pending).offerResults.map
        (fun r => (r.offerId, r.launches))) ∧
    (∀ r ∈ (resourceOffers e m offers pending).offerResults,
      ((r.declinedFinal = true ↔ r.created = 0) ∧
       (r.launches ≠ [] → r.declinedFinal = false))) := by
  have hp2 : pending.isEmpty = false := by
    cases pending
    · exact absurd rfl hp
    · rfl
  refine ⟨?_, ?_, ?_⟩
  · simp [resourceOffers, hp2]
  · simp [resourceOffers, hp2]
  · intro r hr
    simp only [resourceOffers, hp2, Bool.false_eq_true, if_false] at hr
    exact processOffers_result e m offers pending r hr

/-- Witness for c3_offer_settlement on the concrete cycle of the C3
counterexample scenario. -/
theorem c3_offer_settlement_witness :
    ((resourceOffers 0 0 [c3Offer] [c3Desc]).declineBatch =
      ((resourceOffers 0 0 [c3Offer] [c3Desc]).offerResults.filter
        (fun r => r.declinedFinal)).map (fun r => r.offerId)) ∧
    ((resourceOffers 0 0 [c3Offer] [c3Desc]).accepts =
      (resourceOffers 0 0 [c3Offer] [c3Desc]).offerResults.map
        (fun r => (r.offerId, r.launches))) ∧
    (∀ r ∈ (resourceOffers 0 0 [c3Offer] [c3Desc]).offerResults,
      ((r.declinedFinal = true ↔ r.created = 0) ∧
       (r.launches ≠ [] → r.declinedFinal = false))) :=
  c3_offer_settlement 0 0 [c3Offer] [c3Desc] (by decide)

/-- Claim C4: the inner loop walks the pending descriptor list in reverse
insertion order and removes matched descriptors in place. Consequences
proved: the descriptors of the launches assembled for an offer form a
sublist of the REVERSED pending list (later-submitted descriptors are
matched first), the surviving pending list is a sublist of the original
(in-place removal preserves relative order), and a descriptor that matches
against the state at the start of the walk is the FIRST launch of the walk,
ahead of every earlier-submitted descriptor. -/
theorem c4_reverse_insertion_order (e m : Int) (off : Offer)
    (pending : List Descriptor) (d : Descriptor) (rest : List Descriptor)
    (st : OfferSt) (h0 : st.tasks = [])
    (hm : (matchDescriptor e m off d st).2 = true) :
    (((processOffer e m off pending).1.launches.map
        LaunchInfo.desc).Sublist pending.reverse) ∧
    (((processOffer e m off pending).2).Sublist pending) ∧
    (((walkDescriptors e m off (d :: rest) st).1.tasks.map
        LaunchInfo.desc).head? = some d) := by
  refine ⟨?_, ?_, ?_⟩
  · obtain ⟨ts, hts, hsub⟩ := walkDescriptors_tasks_sublist e m off
      pending.reverse
      { remaining := off.res, tasks := [], declined := true, created := 0,
        locks := 1, unlocks := 0 }
    simp only [processOffer]
    rw [hts]
    simpa using hsub
  · have h := walkDescriptors_kept_sublist e m off pending.reverse
      { remaining := off.res, tasks := [], declined := true, created := 0,
        locks := 1, unlocks := 0 }
    simp only [processOffer]
    have h2 := h.reverse
    rwa [List.reverse_reverse] at h2
  · obtain ⟨L, hL, hLd⟩ := matchDescriptor_matched_tasks e m off d st hm
    obtain ⟨ts, hts, _⟩ := walkDescriptors_tasks_sublist e m off rest
      (matchDescriptor e m off d st).1
    rw [walkDescriptors_fst, hts, hL, h0]
    simp [hLd]

/-- Concrete offer, descriptor and start state for the c4 witness. -/
def c4Offer : Offer :=
  { oid := 4, attrs := [],
    res := { cpu := 4, mem := 256, ports := [⟨30000, 30001⟩] } }

def c4Desc : Descriptor :=
  { taskClassName := "c4", requiredAttrs := [],
    wants := some { cpu := 1, memory := 64, staticPorts := [],
                    bindPorts := [] },
    serializeOk := true }

def c4St : OfferSt :=
  { remaining := c4Offer.res, tasks := [], declined := true, created := 0,
    locks := 1, unlocks := 0 }

/-- Witness for c4_reverse_insertion_order at a concrete offer and
descriptor list. -/
theorem c4_reverse_insertion_order_witness :
    (((processOffer 0 0 c4Offer [c4Desc]).1.launches.map
        LaunchInfo.desc).Sublist [c4Desc].reverse) ∧
    (((processOffer 0 0 c4Offer [c4Desc]).2).Sublist [c4Desc]) ∧
    (((walkDescriptors 0 0 c4Offer [c4Desc] c4St).1.tasks.map
        LaunchInfo.desc).head? = some c4Desc) :=
  c4_reverse_insertion_order 0 0 c4Offer [c4Desc] c4Desc [] c4St
    (by decide) (by decide)

/-- Definitions for the concrete cycle refuting claim C5: the offer has no
port resource; c5D1 (submitted last, processed first) demands one named
dynamic port, so the ports run out while binding it; c5D0 (processed
afterwards, on the SAME offer) needs no ports at the Satisfy step, so a
task is created for it, which removes the offer from the decline-set,
before c5D0 is abandoned at the control-port claim. -/
def c5Offer : Offer :=
  { oid := 5, attrs := [], res := { cpu := 4, mem := 256, ports := [] } }

def c5D0 : Descriptor :=
  { taskClassName := "c5d0", requiredAttrs := [],
    wants := some { cpu := 1, memory := 64, staticPorts := [],
                    bindPorts := [] },
    serializeOk := true }

def c5W : Wants :=
  { cpu := 1, memory := 64, staticPorts := [], bindPorts := ["data"] }

def c5D1 : Descriptor :=
  { taskClassName := "c5d1", requiredAttrs := [],
    wants := some c5W, serializeOk := true }

/-- The per-offer start state of the C5 scenario (Lock taken, full offer
resources, everything still to be declined). -/
def c5St0 : OfferSt :=
  { remaining := c5Offer.res, tasks := [], declined := true, created := 0,
    locks := 1, unlocks := 0 }

/-- Claim C5 counterexample: when the ports run out while binding the named
dynamic ports of a descriptor, the offer is NOT necessarily declined and
matching does NOT continue with the next offer. Here the ports run out
during the binding for c5D1; c5D1 is abandoned and stays pending, but the
matcher continues with the next DESCRIPTOR on the same offer: a task is
created for c5D0 (created count 1), which removes the offer from the
decline-set, so the cycle ends with an empty DECLINE batch and no launches
at all. The last two conjuncts show on a two-port descriptor that an
abandoned binding keeps the already-bound port 9100 subtracted from the
remaining ranges. -/
theorem c5_counterexample :
    (bindLoop ["data"] c5Offer.res.ports []).1 = none ∧
    (resourceOffers 0 0 [c5Offer] [c5D0, c5D1]).pendingAfter
      = [c5D0, c5D1] ∧
    (resourceOffers 0 0 [c5Offer] [c5D0, c5D1]).declineBatch = [] ∧
    ((resourceOffers 0 0 [c5Offer] [c5D0, c5D1]).offerResults.map
      OfferResult.created) = [1] ∧
    (resourceOffers 0 0 [c5Offer] [c5D0, c5D1]).accepts = [(5, [])] ∧
    (bindLoop ["a", "b"] [⟨9100, 9100⟩] []).1 = none ∧
    (bindLoop ["a", "b"] [⟨9100, 9100⟩] []).2 = [] := by
  decide

/-- Claim C5 as amended: when the remaining port ranges run out while
binding the named dynamic ports of a descriptor (continue FOR_DESCRIPTORS,
lines 493-497), that descriptor is abandoned and stays in the pending list
for the next cycle; the ports consumed by its earlier bind iterations stay
subtracted from the remaining resources (the Subtract at line 504 is never
undone), while the launch list, the decline status and the creation count
of the offer are untouched; and matching continues with the next
DESCRIPTOR on the same offer, not with the next offer. -/
theorem c5_port_exhaustion (e m : Int) (off : Offer) (d : Descriptor)
    (w : Wants) (rest : List Descriptor) (st : OfferSt)
    (ha : attrsSatisfy off.attrs d.requiredAttrs = true)
    (hw : d.wants = some w)
    (hs : satisfy st.remaining w = true)
    (hb : (bindLoop w.bindPorts st.remaining.ports []).1 = none) :
    matchDescriptor e m off d st =
      ({ st with remaining := { st.remaining with
          ports := (bindLoop w.bindPorts st.remaining.ports []).2 } },
       false) ∧
    (matchDescriptor e m off d st).1.tasks = st.tasks ∧
    (matchDescriptor e m off d st).1.declined = st.declined ∧
    (matchDescriptor e m off d st).1.created = st.created ∧
    (walkDescriptors e m off (d :: rest) st).1 =
      (walkDescriptors e m off rest (matchDescriptor e m off d st).1).1 ∧
    (walkDescriptors e m off (d :: rest) st).2 =
      d :: (walkDescriptors e m off rest
        (matchDescriptor e m off d st).1).2 := by
  rcases hx : bindLoop w.bindPorts st.remaining.ports [] with ⟨o, ps⟩
  rw [hx] at hb
  simp only at hb
  subst hb
  have h1 : matchDescriptor e m off d st =
      ({ st with remaining := { st.remaining with ports := ps } }, false) := by
    unfold matchDescriptor
    simp [ha, hw, hs, hx]
  refine ⟨by simp only [hx]; exact h1, by rw [h1], by rw [h1], by rw [h1],
    walkDescriptors_fst e m off d rest st, ?_⟩
  simp [walkDescriptors, h1]

/-- Witness for c5_port_exhaustion: the C5 scenario offer and its
two-descriptor pending list, starting from the per-offer state c5St0. -/
theorem c5_port_exhaustion_witness :
    matchDescriptor 0 0 c5Offer c5D1 c5St0 =
      ({ c5St0 with remaining := { c5St0.remaining with
          ports := (bindLoop c5W.bindPorts c5St0.remaining.ports []).2 } },
       false) ∧
    (matchDescriptor 0 0 c5Offer c5D1 c5St0).1.tasks = c5St0.tasks ∧
    (matchDescriptor 0 0 c5Offer c5D1 c5St0).1.declined = c5St0.declined ∧
    (matchDescriptor 0 0 c5Offer c5D1 c5St0).1.created = c5St0.created ∧
    (walkDescriptors 0 0 c5Offer (c5D1 :: [c5D0]) c5St0).1 =
      (walkDescriptors 0 0 c5Offer [c5D0]
        (matchDescriptor 0 0 c5Offer c5D1 c5St0).1).1 ∧
    (walkDescriptors 0 0 c5Offer (c5D1 :: [c5D0]) c5St0).2 =
      c5D1 :: (walkDescriptors 0 0 c5Offer [c5D0]
        (matchDescriptor 0 0 c5Offer c5D1 c5St0).1).2 :=
  c5_port_exhaustion 0 0 c5Offer c5D1 c5W [c5D0] c5St0
    (by decide) (by decide) (by decide) (by decide)

/-- Definitions for the concrete cycle exhibiting the unbalanced
lock/unlock path of claim C6: a descriptor that matches but whose run
command fails to serialize, and an identical one that serializes fine. -/
def c6Offer : Offer :=
  { oid := 6, attrs := [],
    res := { cpu := 4, mem := 256, ports := [⟨30000, 30100⟩] } }

def c6DescBad : Descriptor :=
  { taskClassName := "c6bad", requiredAttrs := [],
    wants := some { cpu := 1, memory := 64, staticPorts := [],
                    bindPorts := [] },
    serializeOk := false }

def c6DescOk : Descriptor :=
  { taskClassName := "c6ok", requiredAttrs := [],
    wants := some { cpu := 1, memory := 64, staticPorts := [],
                    bindPorts := [] },
    serializeOk := true }

/-- Claim C6 (code bug): lock and unlock are NOT balanced on the
serialization-failure control path. On that path the source calls
state.Unlock() and continues the inner loop (lines 569-571), and
state.Unlock() runs again after the loop (line 638): one Lock, two Unlocks
for the offer, with the rest of the inner loop running outside the mutex
(in Go the second Unlock of an unlocked sync.Mutex is a runtime fatal
error). On the success path the counters balance at one Lock and one
Unlock. -/
theorem c6_unlock_unbalanced_on_marshal_failure :
    (processOffer 0 0 c6Offer [c6DescBad]).1.locks = 1 ∧
    (processOffer 0 0 c6Offer [c6DescBad]).1.unlocks = 2 ∧
    (processOffer 0 0 c6Offer [c6DescBad]).1.launches = [] ∧
    (processOffer 0 0 c6Offer [c6DescOk]).1.locks = 1 ∧
    (processOffer 0 0 c6Offer [c6DescOk]).1.unlocks = 1 := by decide

/-- The task record as handleDeviceEvent observes it: only the environment
back-reference by identifier matters (t.GetEnvironmentId().UUID()). -/
structure TaskRec where
  envId : Nat
deriving DecidableEq

/-- An environment as handleDeviceEvent observes it: its current state
string (env.CurrentState()). -/
structure EnvRec where
  currentState : String
deriving DecidableEq

/-- The slice of scheduler state handleDeviceEvent reads: the task catalog
(state.taskman.GetTask by task id) and the environment manager
(state.environments.Environment by environment id; none models the lookup
returning an error together with a nil environment pointer). -/
structure DevState where
  tasks : List (String × TaskRec)
  envs : List (Nat × EnvRec)
deriving DecidableEq

def lookupTask (st : DevState) (tid : String) : Option TaskRec :=
  (st.tasks.find? (fun kv => kv.1 == tid)).map Prod.snd

def lookupEnv (st : DevState) (eid : Nat) : Option EnvRec :=
  (st.envs.find? (fun kv => kv.1 == eid)).map Prod.snd

/-- DeviceEvent types: only END_OF_DATA is actionable in the source switch;
every other type is lumped into one constructor. -/
inductive DeviceEventType where
  | endOfData
  | other
deriving DecidableEq

/-- An incoming device event: its type and the task id of its origin. -/
structure DeviceEvent where
  type : DeviceEventType
  originTaskId : String
deriving DecidableEq

/-- The observable outcome of handleDeviceEvent. nilDeref marks the control
path on which env.CurrentState() is invoked on the nil environment pointer
obtained from a failed lookup (lines 332-336 of core/scheduler.go log the
lookup error but do NOT return). -/
inductive DevOutcome where
  | noAction
  | stopActivityInitiated (envId : Nat)
  | nilDeref
deriving DecidableEq

/-- handleDeviceEvent (lines 318-343): nil events and unknown tasks are
logged and ignored; for END_OF_DATA from a known task the environment is
looked up, and when the lookup fails the handler still calls CurrentState
on the nil environment (modelled as nilDeref); otherwise the stop-activity
transition is initiated exactly when the environment state is RUNNING
(TryTransition(NewStopActivityTransition); a failure of the transition is
only logged, the initiation still happened). -/
def handleDeviceEvent (st : DevState) (evt : Option DeviceEvent) :
    DevOutcome :=
  match evt with
  | none => .noAction
  | some e =>
    match e.type with
    | .other => .noAction
    | .endOfData =>
      match lookupTask st e.originTaskId with
      | none => .noAction
      | some t =>
        match lookupEnv st t.envId with
        | none => .nilDeref
        | some env =>
          if env.currentState = "RUNNING" then
            .stopActivityInitiated t.envId
          else
            .noAction

/-- Claim C7: for an END_OF_DATA device event from a known task whose
environment is found, the stop-activity transition is initiated on that
environment exactly when it is in state RUNNING, with no operator action;
in every other state no transition is initiated. -/
theorem c7_end_of_data_stop (st : DevState) (tid : String) (t : TaskRec)
    (env : EnvRec) (ht : lookupTask st tid = some t)
    (he : lookupEnv st t.envId = some env) :
    (env.currentState = "RUNNING" →
      handleDeviceEvent st (some { type := .endOfData, originTaskId := tid })
        = .stopActivityInitiated t.envId) ∧
    (env.currentState ≠ "RUNNING" →
      handleDeviceEvent st (some { type := .endOfData, originTaskId := tid })
        = .noAction) := by
  constructor
  · intro h
    simp [handleDeviceEvent, ht, he, h]
  · intro h
    simp [handleDeviceEvent, ht, he, h]

def c7St : DevState :=
  { tasks := [("t1", { envId := 7 })],
    envs := [(7, { currentState := "RUNNING" })] }

/-- Witness for c7_end_of_data_stop on a concrete running environment. -/
theorem c7_end_of_data_stop_witness :
    (({ currentState := "RUNNING" } : EnvRec).currentState = "RUNNING" →
      handleDeviceEvent c7St (some { type := .endOfData, originTaskId := "t1" })
        = .stopActivityInitiated ({ envId := 7 } : TaskRec).envId) ∧
    (({ currentState := "RUNNING" } : EnvRec).currentState ≠ "RUNNING" →
      handleDeviceEvent c7St (some { type := .endOfData, originTaskId := "t1" })
        = .noAction) :=
  c7_end_of_data_stop c7St "t1" { envId := 7 } { currentState := "RUNNING" }
    (by decide) (by decide)

/-- Claim C9: when the task of an END_OF_DATA event exists but the
environment lookup fails, handleDeviceEvent logs the error WITHOUT
returning and then calls CurrentState on the environment value obtained
from the failed lookup — the nil-dereference control path. -/
theorem c9_env_lookup_failure_nil_deref (st : DevState) (tid : String)
    (t : TaskRec) (ht : lookupTask st tid = some t)
    (he : lookupEnv st t.envId = none) :
    handleDeviceEvent st (some { type := .endOfData, originTaskId := tid })
      = .nilDeref := by
  simp [handleDeviceEvent, ht, he]

def c9St : DevState :=
  { tasks := [("t1", { envId := 7 })], envs := [] }

/-- Witness for c9_env_lookup_failure_nil_deref: a known task whose
environment is absent. -/
theorem c9_env_lookup_failure_nil_deref_witness :
    handleDeviceEvent c9St (some { type := .endOfData, originTaskId := "t1" })
      = .nilDeref :=
  c9_env_lookup_failure_nil_deref c9St "t1" { envId := 7 }
    (by decide) (by decide)

/-- A fully parsed MesosCommandResponse_Transition: the fields the
scheduler reads (TaskId and CurrentState). -/
structure TransitionResponse where
  taskId : String
  currentState : String
deriving DecidableEq

/-- An inbound MESSAGE event as incomingMessageHandler observes it. The
payload is an opaque byte slice probed by successive json.Unmarshal calls;
each field below carries the outcome of one of those calls on the same
payload: peek is the _messageType discriminator (none when the payload is
not parseable at the peek step), devEventParse the DeviceEvent-shaped
parse, devEventConstructs whether event.NewDeviceEvent returns non-nil
(the event package is not part of the excerpted sources), cmdNameParse the
name field, transitionParse the full transition response parse. -/
structure MessageData where
  agentId : String
  executorId : String
  peek : Option String
  devEventParse : Option DeviceEvent
  devEventConstructs : Bool
  cmdNameParse : Option String
  transitionParse : Option TransitionResponse
deriving DecidableEq

/-- The (agent, executor, task) tuple handed to the command servant
(controlcommands.MesosCommandTarget); the task id comes from the parsed
response body, agent and executor from the message envelope. -/
structure Sender where
  agentId : String
  executorId : String
  taskId : String
deriving DecidableEq

/-- The observable outcome of one invocation of incomingMessageHandler:
whether a non-nil error is returned, how many warning-level and
error-level log calls the handler makes on the taken path (debug-level
logging is not tracked), what is delivered to servent.ProcessResponse, and
the outcome of a dispatched device event. -/
structure MsgOutcome where
  retError : Bool
  warnings : Nat
  errorsLogged : Nat
  delivered : Option (TransitionResponse × Sender)
  deviceOutcome : Option DevOutcome
deriving DecidableEq

/-- incomingMessageHandler (lines 209-316 of core/scheduler.go):
- nil message or empty agent or executor id: warning logged, error
  returned;
- peek failure: the unmarshal error is returned with NO log call (lines
  248-251);
- DeviceEvent: parse failure returns the error silently; a parsed event is
  dispatched to handleDeviceEvent when NewDeviceEvent succeeds, otherwise
  an error-level log;
- MesosCommandResponse: name parse failure returns silently; for
  MesosCommand_Transition a full-parse failure is logged at error level
  and returned, a successful parse is delivered to the command servant
  with the (agent, executor, task) sender tuple; an unrecognized command
  name returns an error without logging (line 311);
- any other discriminator: the switch has NO default case, so the handler
  returns nil with no log call at all. -/
def incomingMessageHandler (st : DevState) (msg : Option MessageData) :
    MsgOutcome :=
  match msg with
  | none =>
    { retError := true, warnings := 1, errorsLogged := 0, delivered := none,
      deviceOutcome := none }
  | some m =>
    if m.agentId = "" ∨ m.executorId = "" then
      { retError := true, warnings := 1, errorsLogged := 0,
        delivered := none, deviceOutcome := none }
    else
      match m.peek with
      | none =>
        { retError := true, warnings := 0, errorsLogged := 0,
          delivered := none, deviceOutcome := none }
      | some t =>
        if t = "DeviceEvent" then
          match m.devEventParse with
          | none =>
            { retError := true, warnings := 0, errorsLogged := 0,
              delivered := none, deviceOutcome := none }
          | some ev =>
            if m.devEventConstructs then
              { retError := false, warnings := 0, errorsLogged := 0,
                delivered := none,
                deviceOutcome := some (handleDeviceEvent st (some ev)) }
            else
              { retError := false, warnings := 0, errorsLogged := 1,
                delivered := none, deviceOutcome := none }
        else if t = "MesosCommandResponse" then
          match m.cmdNameParse with
          | none =>
            { retError := true, warnings := 0, errorsLogged := 0,
              delivered := none, deviceOutcome := none }
          | some cn =>
            if cn = "MesosCommand_Transition" then
              match m.transitionParse with
              | none =>
                { retError := true, warnings := 0, errorsLogged := 1,
                  delivered := none, deviceOutcome := none }
              | some res =>
                { retError := false, warnings := 0, errorsLogged := 0,
                  delivered := some (res,
                    { agentId := m.agentId, executorId := m.executorId,
                      taskId := res.taskId }),
                  deviceOutcome := none }
            else
              { retError := true, warnings := 0, errorsLogged := 0,
                delivered := none, deviceOutcome := none }
        else
          { retError := false, warnings := 0, errorsLogged := 0,
            delivered := none, deviceOutcome := none }

def c8St : DevState := { tasks := [], envs := [] }

def c8MsgUnparseable : MessageData :=
  { agentId := "a1", executorId := "e1", peek := none,
    devEventParse := none, devEventConstructs := false,
    cmdNameParse := none, transitionParse := none }

def c8MsgUnknownType : MessageData :=
  { agentId := "a1", executorId := "e1", peek := some "Banana",
    devEventParse := none, devEventConstructs := false,
    cmdNameParse := none, transitionParse := none }

/-- Claim C8 counterexample: neither of the two drop paths logs anything.
A payload with a valid sender that is unparseable at the peek step is
dropped by returning the parse error with zero warning logs (the claim
says it is logged at warning), and a payload whose discriminator is
neither DeviceEvent nor MesosCommandResponse is dropped silently with zero
log calls of any level and no error (the claim says it is logged). -/
theorem c8_counterexample :
    ((incomingMessageHandler c8St (some c8MsgUnparseable)).warnings = 0 ∧
     (incomingMessageHandler c8St (some c8MsgUnparseable)).retError
       = true) ∧
    ((incomingMessageHandler c8St (some c8MsgUnknownType)).warnings = 0 ∧
     (incomingMessageHandler c8St (some c8MsgUnknownType)).errorsLogged
       = 0 ∧
     (incomingMessageHandler c8St (some c8MsgUnknownType)).retError
       = false) := by decide

/-- Claim C8 as amended: for a MESSAGE with a valid sender, a payload
unparseable at the peek step makes the handler return the parse error with
no log call and no delivery (dropped, never retried); a payload whose
discriminator is neither DeviceEvent nor MesosCommandResponse is dropped
silently (no log, no error, no delivery); and a MesosCommandResponse whose
name is the transition response is fully parsed and delivered to the
command servant with the (agent, executor, task) sender tuple. -/
theorem c8_message_routing (st : DevState) (m : MessageData)
    (hA : ¬ (m.agentId = "" ∨ m.executorId = "")) :
    (m.peek = none →
      incomingMessageHandler st (some m) =
        { retError := true, warnings := 0, errorsLogged := 0,
          delivered := none, deviceOutcome := none }) ∧
    (∀ t, m.peek = some t → t ≠ "DeviceEvent" →
      t ≠ "MesosCommandResponse" →
      incomingMessageHandler st (some m) =
        { retError := false, warnings := 0, errorsLogged := 0,
          delivered := none, deviceOutcome := none }) ∧
    (∀ res, m.peek = some "MesosCommandResponse" →
      m.cmdNameParse = some "MesosCommand_Transition" →
      m.transitionParse = some res →
      (incomingMessageHandler st (some m)).delivered =
        some (res, { agentId := m.agentId, executorId := m.executorId,
                     taskId := res.taskId })) := by
  refine ⟨?_, ?_, ?_⟩
  · intro h
    simp [incomingMessageHandler, hA, h]
  · intro t h ht1 ht2
    simp [incomingMessageHandler, hA, h, ht1, ht2]
  · intro res h hc hr
    simp [incomingMessageHandler, hA, h, hc, hr]

def c8MsgTransition : MessageData :=
  { agentId := "a1", executorId := "e1",
    peek := some "MesosCommandResponse",
    devEventParse := none, devEventConstructs := false,
    cmdNameParse := some "MesosCommand_Transition",
    transitionParse := some { taskId := "t9", currentState := "CONFIGURED" } }

/-- Witness for c8_message_routing on a concrete transition response. -/
theorem c8_message_routing_witness :
    (c8MsgTransition.peek = none →
      incomingMessageHandler c8St (some c8MsgTransition) =
        { retError := true, warnings := 0, errorsLogged := 0,
          delivered := none, deviceOutcome := none }) ∧
    (∀ t, c8MsgTransition.peek = some t → t ≠ "DeviceEvent" →
      t ≠ "MesosCommandResponse" →
      incomingMessageHandler c8St (some c8MsgTransition) =
        { retError := false, warnings := 0, errorsLogged := 0,
          delivered := none, deviceOutcome := none }) ∧
    (∀ res, c8MsgTransition.peek = some "MesosCommandResponse" →
      c8MsgTransition.cmdNameParse = some "MesosCommand_Transition" →
      c8MsgTransition.transitionParse = some res →
      (incomingMessageHandler c8St (some c8MsgTransition)).delivered =
        some (res, { agentId := c8MsgTransition.agentId,
                     executorId := c8MsgTransition.executorId,
                     taskId := res.taskId })) :=
  c8_message_routing c8St c8MsgTransition (by decide)

/-- A workflow repository as the refresh operations observe it. The
refresh method itself is not part of the excerpted sources; its outcome on
a non-nil repo is carried by the refreshOk field. -/
structure Repo where
  identifier : String
  refreshOk : Bool
deriving DecidableEq

/-- Modelled from the spec: utils.EnsureTrailingSlash (the utils package is
not part of the excerpted sources) — trailing-slash normalization of a
repo path, as claim C10 describes it. -/
def ensureTrailingSlash (s : String) : String :=
  if s.data.getLast? = some '/' then s else s ++ "/"

/-- RepoManager.repoList: the Go map from normalized repo path to repo,
modelled as an association list with distinct keys. -/
structure RepoManager where
  repoList : List (String × Repo)
deriving DecidableEq

/-- Go map indexing: the value for a present key, none for an absent key
(in Go the zero value, a nil pointer). -/
def lookupRepo (l : List (String × Repo)) (k : String) : Option Repo :=
  (l.find? (fun kv => kv.1 == k)).map Prod.snd

/-- The outcome of a refresh operation. nilDeref marks the control path on
which repo.refresh() is invoked on the nil pointer a failed map lookup
yields. -/
inductive RefreshResult where
  | ok
  | refreshErr
  | nilDeref
  | notFound
deriving DecidableEq

/-- RepoManager.RefreshRepo (lines 249-258 of
core/repos/repomanager.go): normalize the path, index the map, and call
refresh on the result WITHOUT any presence check. -/
def RefreshRepo (mgr : RepoManager) (repoPath : String) : RefreshResult :=
  let p := ensureTrailingSlash repoPath
  match lookupRepo mgr.repoList p with
  | some r => if r.refreshOk then .ok else .refreshErr
  | none => .nilDeref

/-- RepoManager.GetOrderedRepolistKeys (lines 401-409): the map keys in
alphabetical order. -/
def GetOrderedRepolistKeys (mgr : RepoManager) : List String :=
  List.insertionSort (· ≤ ·) (mgr.repoList.map Prod.fst)

/-- RepoManager.RefreshRepoByIndex (lines 260-275): walk the ordered keys
looking for the given index; refresh the repo at that index, or return a
repo-not-found error when the index is out of range. -/
def RefreshRepoByIndex (mgr : RepoManager) (index : Nat) : RefreshResult :=
  let keys := GetOrderedRepolistKeys mgr
  match keys[index]? with
  | some k =>
    match lookupRepo mgr.repoList k with
    | some r => if r.refreshOk then .ok else .refreshErr
    | none => .nilDeref
  | none => .notFound

/-- Claim C10: RefreshRepo has the implicit precondition that the
normalized path is a key of the repo list — for a registered path it
returns the refresh outcome of that repo, for an absent path the map
lookup yields nil and refresh is invoked on the nil repo (nilDeref) rather
than returning a repo-not-found error, while RefreshRepoByIndex returns an
error for an out-of-range index. -/
theorem c10_refreshRepo_precondition (mgr : RepoManager) (p q : String)
    (r : Repo) (i : Nat)
    (hp : lookupRepo mgr.repoList (ensureTrailingSlash p) = some r)
    (hq : lookupRepo mgr.repoList (ensureTrailingSlash q) = none)
    (hi : (GetOrderedRepolistKeys mgr).length ≤ i) :
    RefreshRepo mgr p = (if r.refreshOk then .ok else .refreshErr) ∧
    RefreshRepo mgr q = .nilDeref ∧
    RefreshRepoByIndex mgr i = .notFound := by
  refine ⟨?_, ?_, ?_⟩
  · simp [RefreshRepo, hp]
  · simp [RefreshRepo, hq]
  · have h := List.getElem?_eq_none hi
    simp [RefreshRepoByIndex, h]

def c10Repo : Repo := { identifier := "github.com/u/a/", refreshOk := true }

def c10Mgr : RepoManager :=
  { repoList := [("github.com/u/a/", c10Repo)] }

/-- Witness for c10_refreshRepo_precondition: a manager holding one repo, a
registered path, an absent path and an out-of-range index. -/
theorem c10_refreshRepo_precondition_witness :
    RefreshRepo c10Mgr "github.com/u/a" =
      (if c10Repo.refreshOk then .ok else .refreshErr) ∧
    RefreshRepo c10Mgr "github.com/u/b" = .nilDeref ∧
    RefreshRepoByIndex c10Mgr 1 = .notFound :=
  c10_refreshRepo_precondition c10Mgr "github.com/u/a" "github.com/u/b"
    c10Repo 1 (by decide) (by decide) (by decide)

end O2Sched

